import Mathlib

/-!
Verification of `submit_sitemap.py`, a straight-line script that loads
service-account credentials, builds a Search Console client, submits one
sitemap URL and prints a confirmation line.

The script body is embedded as `runScript`, a function of an environment
`Env` supplying the behaviour of the three external-library calls the
script makes (credential loading, client construction, request execution).
Each call may fault, in which case the Python exception propagates and the
module body stops; `runScript` returns the trace of observable events
produced so far together with the propagated fault, if any.
-/

namespace SubmitSitemap

/-- One piece of a Python f-string template: a literal fragment, or an
interpolation slot for the (single) interpolated variable. -/
inductive FPart where
  | lit (s : String)
  | interp
deriving DecidableEq, Repr

/-- Rendering of an f-string template against the value of its
interpolated variable: fragments are concatenated left to right, each
interpolation slot contributing the variable's value. -/
def fstringRender : List FPart → String → String
  | [], _ => ""
  | FPart.lit s :: rest, v => s ++ fstringRender rest v
  | FPart.interp :: rest, v => v ++ fstringRender rest v

/-- `SCOPES = ['https://www.googleapis.com/auth/webmasters']` (line 4). -/
def SCOPES : List String := ["https://www.googleapis.com/auth/webmasters"]

/-- `SERVICE_ACCOUNT_FILE = 'credentials.json'` (line 5). -/
def SERVICE_ACCOUNT_FILE : String := "credentials.json"

/-- `site_url = 'https://tgst-jcvehdgl3-humangos-projects.vercel.app'`
(line 12). -/
def site_url : String := "https://tgst-jcvehdgl3-humangos-projects.vercel.app"

/-- `sitemap_url = f'{site_url}/sitemap.xml'` (line 13), as a function of
the interpolated variable: the f-string template has an interpolation slot
followed by the literal fragment `/sitemap.xml`. -/
def sitemap_url (s : String) : String :=
  fstringRender [FPart.interp, FPart.lit "/sitemap.xml"] s

/-- The keyword arguments of the `submit` call (line 15). The structure has
exactly the two fields the call passes: `siteUrl` and `feedpath`. -/
structure SubmitParams where
  siteUrl : String
  feedpath : String
deriving DecidableEq, Repr

/-- Observable events of one run of the module body, in program order:
the credential-loading call with its file and scope list, the client
construction with API name and version, the local construction of the
submit request with its keyword arguments, the network call issued by
`request.execute()`, and a line printed to standard output. -/
inductive Event where
  | loadCredentials (file : String) (scopes : List String)
  | buildClient (api : String) (version : String)
  | constructRequest (p : SubmitParams)
  | networkCall (p : SubmitParams)
  | printLine (s : String)
deriving DecidableEq, Repr

/-- Behaviour of the external libraries the script calls into. `Cred`,
`Client`, `Resp` and `Fault` are the (opaque to the script) types of the
credential object, the service client, the structured API response and a
raised Python exception. Each call either returns a value or raises. -/
structure Env (Cred Client Resp Fault : Type) where
  from_service_account_file : String → List String → Except Fault Cred
  build : String → String → Cred → Except Fault Client
  execute : Client → SubmitParams → Except Fault Resp

/-- The literal printed on line 17. -/
def confirmationMessage : String := "✅ Sitemap soumis à Google Search Console"

/-- The module body of `submit_sitemap.py` (lines 7-17): load credentials
from `SERVICE_ACCOUNT_FILE` with `SCOPES`, build the `searchconsole` `v1`
client, construct the submit request with `siteUrl=site_url` and
`feedpath=sitemap_url`, execute it, print the confirmation. A raised
exception stops the body and is returned as the second component; the
first component is the trace of events up to that point. -/
def runScript {Cred Client Resp Fault : Type}
    (env : Env Cred Client Resp Fault) : List Event × Option Fault :=
  let ev0 := [Event.loadCredentials SERVICE_ACCOUNT_FILE SCOPES]
  match env.from_service_account_file SERVICE_ACCOUNT_FILE SCOPES with
  | .error f => (ev0, some f)
  | .ok credentials =>
    let ev1 := ev0 ++ [Event.buildClient "searchconsole" "v1"]
    match env.build "searchconsole" "v1" credentials with
    | .error f => (ev1, some f)
    | .ok webmasters_service =>
      let p : SubmitParams := ⟨site_url, sitemap_url site_url⟩
      let ev2 := ev1 ++ [Event.constructRequest p]
      let ev3 := ev2 ++ [Event.networkCall p]
      match env.execute webmasters_service p with
      | .error f => (ev3, some f)
      | .ok _resp => (ev3 ++ [Event.printLine confirmationMessage], none)

/-- The lines a trace writes to standard output, in order. -/
def printedLines : List Event → List String
  | [] => []
  | Event.printLine s :: rest => s :: printedLines rest
  | _ :: rest => printedLines rest

/-- Whether an event is an outbound network call. -/
def isNetworkCall : Event → Bool
  | Event.networkCall _ => true
  | _ => false

/-- Number of outbound network calls in a trace. -/
def networkCallCount (evs : List Event) : Nat := evs.countP isNetworkCall

/-- The full linear event sequence of a run in which nothing faults. -/
def fullTrace : List Event :=
  [Event.loadCredentials SERVICE_ACCOUNT_FILE SCOPES,
   Event.buildClient "searchconsole" "v1",
   Event.constructRequest ⟨site_url, sitemap_url site_url⟩,
   Event.networkCall ⟨site_url, sitemap_url site_url⟩,
   Event.printLine confirmationMessage]

/-- An environment in which every external call succeeds. -/
def allOkEnv : Env Unit Unit Unit Unit where
  from_service_account_file := fun _ _ => .ok ()
  build := fun _ _ _ => .ok ()
  execute := fun _ _ => .ok ()

/-- An environment in which credential loading raises. -/
def loadFailEnv : Env Unit Unit Unit Unit where
  from_service_account_file := fun _ _ => .error ()
  build := fun _ _ _ => .ok ()
  execute := fun _ _ => .ok ()

/-- An environment in which request execution returns the given response
value and every other call succeeds. -/
def respEnv (r : Nat) : Env Unit Unit Nat Unit where
  from_service_account_file := fun _ _ => .ok ()
  build := fun _ _ _ => .ok ()
  execute := fun _ _ => .ok r

/-- The sitemap URL expressed directly as a concatenation. -/
theorem sitemap_url_eq (s : String) : sitemap_url s = s ++ "/sitemap.xml" := by
  simp [sitemap_url, fstringRender]

/-- Exhaustive case analysis of a run: either one of the three external
calls raises, the trace stops there and the raised fault is the run's
result, or all succeed, the trace is `fullTrace` and there is no fault. -/
theorem runScript_spec {C Cl R F : Type} (env : Env C Cl R F) :
    (∃ f, env.from_service_account_file SERVICE_ACCOUNT_FILE SCOPES = .error f ∧
      runScript env = ([Event.loadCredentials SERVICE_ACCOUNT_FILE SCOPES], some f))
  ∨ (∃ c f, env.from_service_account_file SERVICE_ACCOUNT_FILE SCOPES = .ok c ∧
      env.build "searchconsole" "v1" c = .error f ∧
      runScript env = ([Event.loadCredentials SERVICE_ACCOUNT_FILE SCOPES,
        Event.buildClient "searchconsole" "v1"], some f))
  ∨ (∃ c w f, env.from_service_account_file SERVICE_ACCOUNT_FILE SCOPES = .ok c ∧
      env.build "searchconsole" "v1" c = .ok w ∧
      env.execute w ⟨site_url, sitemap_url site_url⟩ = .error f ∧
      runScript env = ([Event.loadCredentials SERVICE_ACCOUNT_FILE SCOPES,
        Event.buildClient "searchconsole" "v1",
        Event.constructRequest ⟨site_url, sitemap_url site_url⟩,
        Event.networkCall ⟨site_url, sitemap_url site_url⟩], some f))
  ∨ (∃ c w r, env.from_service_account_file SERVICE_ACCOUNT_FILE SCOPES = .ok c ∧
      env.build "searchconsole" "v1" c = .ok w ∧
      env.execute w ⟨site_url, sitemap_url site_url⟩ = .ok r ∧
      runScript env = (fullTrace, none)) := by
  rcases hl : env.from_service_account_file SERVICE_ACCOUNT_FILE SCOPES with f | c
  · exact Or.inl ⟨f, rfl, by simp [runScript, hl]⟩
  · rcases hb : env.build "searchconsole" "v1" c with f | w
    · exact Or.inr (Or.inl ⟨c, f, rfl, hb, by simp [runScript, hl, hb]⟩)
    · rcases he : env.execute w ⟨site_url, sitemap_url site_url⟩ with f | r
      · exact Or.inr (Or.inr (Or.inl
          ⟨c, w, f, rfl, hb, he, by simp [runScript, hl, hb, he]⟩))
      · exact Or.inr (Or.inr (Or.inr
          ⟨c, w, r, rfl, hb, he, by simp [runScript, hl, hb, he, fullTrace]⟩))

/-- Every network-call event of a run carries the keyword arguments
`siteUrl = site_url` and `feedpath = sitemap_url site_url`. -/
theorem networkCall_params {C Cl R F : Type} (env : Env C Cl R F)
    (p : SubmitParams) (h : Event.networkCall p ∈ (runScript env).1) :
    p = ⟨site_url, sitemap_url site_url⟩ := by
  rcases runScript_spec env with ⟨f, _, hrun⟩ | ⟨c, f, _, _, hrun⟩ |
    ⟨c, w, f, _, _, _, hrun⟩ | ⟨c, w, r, _, _, _, hrun⟩ <;>
    rw [hrun] at h <;> simp [fullTrace] at h <;> simp [h]

/-- Claim C1: for every site URL string S, the sitemap URL the script
derives equals S concatenated with the literal "/sitemap.xml", with no
other characters inserted or removed. -/
theorem C1_sitemap_url_is_concatenation (S : String) :
    sitemap_url S = S ++ "/sitemap.xml" :=
  sitemap_url_eq S

/-- Claim C2: the submission call is invoked with exactly two keyword
arguments, `siteUrl` equal to the site URL and `feedpath` equal to the
site URL followed by "/sitemap.xml"; `SubmitParams` has no other field. -/
theorem C2_submit_invoked_with_two_params {C Cl R F : Type}
    (env : Env C Cl R F) (p : SubmitParams)
    (h : Event.networkCall p ∈ (runScript env).1) :
    p = { siteUrl := site_url, feedpath := site_url ++ "/sitemap.xml" } := by
  rw [networkCall_params env p h, sitemap_url_eq]

/-- Witness for C2: in the all-successful run the network call happens,
and its parameters are as claimed. -/
theorem C2_submit_invoked_with_two_params_witness :
    Event.networkCall ⟨site_url, sitemap_url site_url⟩ ∈ (runScript allOkEnv).1 ∧
      (⟨site_url, sitemap_url site_url⟩ : SubmitParams) =
        { siteUrl := site_url, feedpath := site_url ++ "/sitemap.xml" } := by
  have h : Event.networkCall ⟨site_url, sitemap_url site_url⟩ ∈ (runScript allOkEnv).1 := by
    decide
  exact ⟨h, C2_submit_invoked_with_two_params allOkEnv _ h⟩

/-- Claim C3: whenever no external call faults, the run writes exactly one
line to standard output, and that line is the fixed confirmation string. -/
theorem C3_success_prints_exactly_confirmation {C Cl R F : Type}
    (env : Env C Cl R F) (h : (runScript env).2 = none) :
    printedLines (runScript env).1 = [confirmationMessage] := by
  rcases runScript_spec env with ⟨f, _, hrun⟩ | ⟨c, f, _, _, hrun⟩ |
    ⟨c, w, f, _, _, _, hrun⟩ | ⟨c, w, r, _, _, _, hrun⟩ <;>
    rw [hrun] at h ⊢ <;> simp_all [printedLines, fullTrace]

/-- Witness for C3: the all-successful run has no fault and prints the
confirmation line only. -/
theorem C3_success_prints_exactly_confirmation_witness :
    (runScript allOkEnv).2 = none ∧
      printedLines (runScript allOkEnv).1 = [confirmationMessage] :=
  ⟨rfl, C3_success_prints_exactly_confirmation allOkEnv rfl⟩

/-- Claim C4: if a fault is raised, the run terminates with that fault as
its unhandled result, nothing at all is printed (in particular the
confirmation string is not), and the fault is exactly the one raised by
the credential-loading, client-construction or request-execution call. -/
theorem C4_fault_propagates_without_print {C Cl R F : Type}
    (env : Env C Cl R F) (f : F) (h : (runScript env).2 = some f) :
    printedLines (runScript env).1 = [] ∧
      Event.printLine confirmationMessage ∉ (runScript env).1 ∧
      (env.from_service_account_file SERVICE_ACCOUNT_FILE SCOPES = .error f ∨
       (∃ c, env.from_service_account_file SERVICE_ACCOUNT_FILE SCOPES = .ok c ∧
         env.build "searchconsole" "v1" c = .error f) ∨
       (∃ c w, env.from_service_account_file SERVICE_ACCOUNT_FILE SCOPES = .ok c ∧
         env.build "searchconsole" "v1" c = .ok w ∧
         env.execute w ⟨site_url, sitemap_url site_url⟩ = .error f)) := by
  rcases runScript_spec env with ⟨g, hl, hrun⟩ | ⟨c, g, hl, hb, hrun⟩ |
    ⟨c, w, g, hl, hb, he, hrun⟩ | ⟨c, w, r, hl, hb, he, hrun⟩ <;>
    rw [hrun] at h ⊢ <;> simp only [Option.some.injEq] at h <;> try cases h
  · exact ⟨rfl, by simp [printedLines], Or.inl hl⟩
  · exact ⟨rfl, by simp [printedLines], Or.inr (Or.inl ⟨c, hl, hb⟩)⟩
  · exact ⟨rfl, by simp [printedLines], Or.inr (Or.inr ⟨c, w, hl, hb, he⟩)⟩

/-- Witness for C4: when credential loading raises, the run result is that
fault and nothing is printed. -/
theorem C4_fault_propagates_without_print_witness :
    (runScript loadFailEnv).2 = some () ∧
      printedLines (runScript loadFailEnv).1 = [] :=
  ⟨rfl, (C4_fault_propagates_without_print loadFailEnv () rfl).1⟩

/-- Claim C5: every run issues at most one outbound network call, whatever
the outcomes of the external calls. -/
theorem C5_at_most_one_network_call {C Cl R F : Type} (env : Env C Cl R F) :
    networkCallCount (runScript env).1 ≤ 1 := by
  rcases runScript_spec env with ⟨f, _, hrun⟩ | ⟨c, f, _, _, hrun⟩ |
    ⟨c, w, f, _, _, _, hrun⟩ | ⟨c, w, r, _, _, _, hrun⟩ <;>
    rw [hrun] <;> simp [networkCallCount, fullTrace, isNetworkCall]

/-- Claim C6: every run is an initial segment of the one fixed linear
event sequence load credentials, build client, construct request, execute
request, print confirmation — so the steps always occur in that order with
no branching and no repetition. -/
theorem C6_strictly_linear_sequence {C Cl R F : Type} (env : Env C Cl R F) :
    ∃ rest, (runScript env).1 ++ rest = fullTrace := by
  rcases runScript_spec env with ⟨f, _, hrun⟩ | ⟨c, f, _, _, hrun⟩ |
    ⟨c, w, f, _, _, _, hrun⟩ | ⟨c, w, r, _, _, _, hrun⟩ <;>
    rw [hrun] <;> exact ⟨_, rfl⟩

/-- Claim C7: every scope list handed to the credential loader in any run
is non-empty. -/
theorem C7_scopes_list_nonempty {C Cl R F : Type} (env : Env C Cl R F)
    (file : String) (scopes : List String)
    (h : Event.loadCredentials file scopes ∈ (runScript env).1) :
    scopes ≠ [] := by
  rcases runScript_spec env with ⟨f, _, hrun⟩ | ⟨c, f, _, _, hrun⟩ |
    ⟨c, w, f, _, _, _, hrun⟩ | ⟨c, w, r, _, _, _, hrun⟩ <;>
    rw [hrun] at h <;> simp [fullTrace] at h <;>
    simp [h.2, SCOPES]

/-- Witness for C7: the credential-loading event of the all-successful run
carries `SCOPES`, which is non-empty. -/
theorem C7_scopes_list_nonempty_witness :
    Event.loadCredentials SERVICE_ACCOUNT_FILE SCOPES ∈ (runScript allOkEnv).1 ∧
      SCOPES ≠ [] := by
  have h : Event.loadCredentials SERVICE_ACCOUNT_FILE SCOPES ∈ (runScript allOkEnv).1 := by
    decide
  exact ⟨h, C7_scopes_list_nonempty allOkEnv SERVICE_ACCOUNT_FILE SCOPES h⟩

/-- Claim C8: the structured response is discarded — any two successful
runs, even against environments whose responses have different types and
values, produce identical traces and hence identical printed output. -/
theorem C8_response_content_irrelevant {C1 Cl1 R1 F1 C2 Cl2 R2 F2 : Type}
    (env1 : Env C1 Cl1 R1 F1) (env2 : Env C2 Cl2 R2 F2)
    (h1 : (runScript env1).2 = none) (h2 : (runScript env2).2 = none) :
    printedLines (runScript env1).1 = printedLines (runScript env2).1 ∧
      (runScript env1).1 = (runScript env2).1 := by
  rcases runScript_spec env1 with ⟨f, _, hrun1⟩ | ⟨c, f, _, _, hrun1⟩ |
    ⟨c, w, f, _, _, _, hrun1⟩ | ⟨c, w, r, _, _, _, hrun1⟩ <;>
    rw [hrun1] at h1 <;> try simp at h1
  rcases runScript_spec env2 with ⟨f, _, hrun2⟩ | ⟨c, f, _, _, hrun2⟩ |
    ⟨c, w, f, _, _, _, hrun2⟩ | ⟨c, w, r, _, _, _, hrun2⟩ <;>
    rw [hrun2] at h2 <;> try simp at h2
  rw [hrun1, hrun2]
  exact ⟨rfl, rfl⟩

/-- Witness for C8: two successful runs whose API responses are the
distinct values 0 and 1 print the same output. -/
theorem C8_response_content_irrelevant_witness :
    (runScript (respEnv 0)).2 = none ∧ (runScript (respEnv 1)).2 = none ∧
      printedLines (runScript (respEnv 0)).1 =
        printedLines (runScript (respEnv 1)).1 :=
  ⟨rfl, rfl, (C8_response_content_irrelevant (respEnv 0) (respEnv 1) rfl rfl).1⟩

/-- Claim C9: in every run and whatever the environment does, the
submitted `siteUrl` is the hardcoded constant and the `feedpath` is that
constant followed by "/sitemap.xml". -/
theorem C9_hardcoded_site_and_feedpath {C Cl R F : Type}
    (env : Env C Cl R F) (p : SubmitParams)
    (h : Event.networkCall p ∈ (runScript env).1) :
    p.siteUrl = "https://tgst-jcvehdgl3-humangos-projects.vercel.app" ∧
      p.feedpath =
        "https://tgst-jcvehdgl3-humangos-projects.vercel.app/sitemap.xml" := by
  rw [networkCall_params env p h]
  refine ⟨rfl, ?_⟩
  rw [sitemap_url_eq]
  decide

/-- Witness for C9: the network call of the all-successful run targets the
hardcoded site and sitemap. -/
theorem C9_hardcoded_site_and_feedpath_witness :
    Event.networkCall ⟨site_url, sitemap_url site_url⟩ ∈ (runScript allOkEnv).1 ∧
      (site_url = "https://tgst-jcvehdgl3-humangos-projects.vercel.app" ∧
        sitemap_url site_url =
          "https://tgst-jcvehdgl3-humangos-projects.vercel.app/sitemap.xml") := by
  have h : Event.networkCall ⟨site_url, sitemap_url site_url⟩ ∈ (runScript allOkEnv).1 := by
    decide
  exact ⟨h, C9_hardcoded_site_and_feedpath allOkEnv _ h⟩

/-- Claim C10: the fixed confirmation line printed by a successful run is
exactly the French string "✅ Sitemap soumis à Google Search Console". -/
theorem C10_confirmation_is_french_literal {C Cl R F : Type}
    (env : Env C Cl R F) (h : (runScript env).2 = none) :
    printedLines (runScript env).1 =
      ["✅ Sitemap soumis à Google Search Console"] := by
  rcases runScript_spec env with ⟨f, _, hrun⟩ | ⟨c, f, _, _, hrun⟩ |
    ⟨c, w, f, _, _, _, hrun⟩ | ⟨c, w, r, _, _, _, hrun⟩ <;>
    rw [hrun] at h ⊢ <;> simp_all [printedLines, fullTrace, confirmationMessage]

/-- Witness for C10: the all-successful run prints exactly that literal. -/
theorem C10_confirmation_is_french_literal_witness :
    (runScript allOkEnv).2 = none ∧
      printedLines (runScript allOkEnv).1 =
        ["✅ Sitemap soumis à Google Search Console"] :=
  ⟨rfl, C10_confirmation_is_french_literal allOkEnv rfl⟩

end SubmitSitemap
